import Mathlib

/-!
Shallow embedding of the Pong game in `##GROK6.29.251.04K.py`.

The program keeps one mutable `Game` object holding two paddle rectangles,
a ball rectangle, a velocity vector, two scores and session flags, and mutates
it through `reset()` and `update()`.  Rectangles follow pygame `Rect`
semantics: integer `x`, `y`, `w`, `h`, with `top = y`, `bottom = y + h`,
`left = x`, `right = x + w`, `centery = y + h / 2` (integer division), and
assigning `center = (cx, cy)` sets `x = cx - w / 2`, `y = cy - h / 2`.
Sound playback and drawing are side effects with no influence on the state
and are not modelled.
-/

/-- Field width (source constant `WIDTH = 640`). -/
def WIDTH : Int := 640

/-- Field height (source constant `HEIGHT = 480`). -/
def HEIGHT : Int := 480

/-- Source constant `PADDLE_WIDTH = 10`. -/
def PADDLE_WIDTH : Int := 10

/-- Source constant `PADDLE_HEIGHT = 60`. -/
def PADDLE_HEIGHT : Int := 60

/-- Source constant `BALL_SIZE = 10`. -/
def BALL_SIZE : Int := 10

/-- Source constant `PADDLE_SPEED = 3`. -/
def PADDLE_SPEED : Int := 3

/-- Source constant `BALL_SPEED = 4`. -/
def BALL_SPEED : Int := 4

/-- A pygame `Rect`: top-left corner `(x, y)`, width `w`, height `h`. -/
structure Rect where
  x : Int
  y : Int
  w : Int
  h : Int
  deriving DecidableEq, Repr

/-- pygame `Rect.left`. -/
def Rect.left (r : Rect) : Int := r.x

/-- pygame `Rect.right`. -/
def Rect.right (r : Rect) : Int := r.x + r.w

/-- pygame `Rect.top`. -/
def Rect.top (r : Rect) : Int := r.y

/-- pygame `Rect.bottom`. -/
def Rect.bottom (r : Rect) : Int := r.y + r.h

/-- pygame `Rect.centerx` (integer division, truncating like C). -/
def Rect.centerx (r : Rect) : Int := r.x + r.w / 2

/-- pygame `Rect.centery` (integer division, truncating like C). -/
def Rect.centery (r : Rect) : Int := r.y + r.h / 2

/-- pygame assignment `rect.center = (cx, cy)`: moves the top-left corner so
that the center becomes `(cx, cy)` up to the integer-division rounding. -/
def Rect.setCenter (r : Rect) (cx cy : Int) : Rect :=
  { r with x := cx - r.w / 2, y := cy - r.h / 2 }

/-- pygame `Rect.colliderect`: strict axis-aligned overlap test; rectangles
with a zero width or height never collide. -/
def Rect.colliderect (a b : Rect) : Bool :=
  decide (a.w ≠ 0) && decide (a.h ≠ 0) && decide (b.w ≠ 0) && decide (b.h ≠ 0) &&
    decide (a.x < b.x + b.w) && decide (a.y < b.y + b.h) &&
    decide (b.x < a.x + a.w) && decide (b.y < a.y + a.h)

/-- The pressed/unpressed state of the four keys `update()` reads
(`K_w`, `K_s`, `K_UP`, `K_DOWN`). -/
structure Keys where
  w : Bool
  s : Bool
  up : Bool
  down : Bool
  deriving DecidableEq, Repr

/-- The fields of the Python `Game` object. -/
structure Game where
  paddle1 : Rect
  paddle2 : Rect
  ball : Rect
  ball_speed : Int × Int
  score1 : Nat
  score2 : Nat
  ai_active : Bool
  last_update : Int
  insert_coin : Bool
  game_over : Bool
  deriving DecidableEq, Repr

/-- `Game.reset`: lines 47-55 of the source.  Rebuilds both paddles, the
ball (its top-left corner is placed at `(WIDTH // 2, HEIGHT // 2)`), the
velocity vector, both scores and the two flags the method assigns. -/
def Game.reset (g : Game) : Game :=
  { g with
    paddle1 := ⟨50, HEIGHT / 2 - PADDLE_HEIGHT / 2, PADDLE_WIDTH, PADDLE_HEIGHT⟩
    paddle2 := ⟨WIDTH - 50 - PADDLE_WIDTH, HEIGHT / 2 - PADDLE_HEIGHT / 2, PADDLE_WIDTH, PADDLE_HEIGHT⟩
    ball := ⟨WIDTH / 2, HEIGHT / 2, BALL_SIZE, BALL_SIZE⟩
    ball_speed := (BALL_SPEED, BALL_SPEED)
    score1 := 0
    score2 := 0
    insert_coin := false
    game_over := false }

/-- `Game.__init__`: calls `reset()` and then sets `ai_active = True`,
`last_update` to the current tick count `t`, `insert_coin = True`,
`game_over = False`. -/
def initGame (t : Int) : Game :=
  { Game.reset ⟨⟨0, 0, 0, 0⟩, ⟨0, 0, 0, 0⟩, ⟨0, 0, 0, 0⟩, (0, 0), 0, 0, true, t, true, true⟩ with
    ai_active := true
    last_update := t
    insert_coin := true
    game_over := false }

/-- Paddle-one movement (source lines 68-71): move up by `PADDLE_SPEED` when
`K_w` is held and `top > 0`, then move down when `K_s` is held and the
(possibly already moved) paddle has `bottom < HEIGHT`. -/
def movePaddle1 (k : Keys) (p : Rect) : Rect :=
  let p1 := if k.w ∧ 0 < p.top then { p with y := p.y - PADDLE_SPEED } else p
  if k.s ∧ p1.bottom < HEIGHT then { p1 with y := p1.y + PADDLE_SPEED } else p1

/-- Paddle-two movement (source lines 73-83): keyboard control with `K_UP`
and `K_DOWN` when the AI is off, otherwise step `PADDLE_SPEED` toward the
ball's vertical center whenever the ball center is more than 30 units away
from the (possibly already moved) paddle center, each step gated by the
bound checks `bottom < HEIGHT` and `top > 0`. -/
def movePaddle2 (ai : Bool) (k : Keys) (ball p : Rect) : Rect :=
  if !ai then
    let p1 := if k.up ∧ 0 < p.top then { p with y := p.y - PADDLE_SPEED } else p
    if k.down ∧ p1.bottom < HEIGHT then { p1 with y := p1.y + PADDLE_SPEED } else p1
  else
    let p1 := if p.centery + 30 < ball.centery ∧ p.bottom < HEIGHT then
        { p with y := p.y + PADDLE_SPEED } else p
    if ball.centery < p1.centery - 30 ∧ 0 < p1.top then
      { p1 with y := p1.y - PADDLE_SPEED } else p1

/-- The ball after being advanced by the current velocity vector
(source lines 86-87: `ball.x += ball_speed[0]; ball.y += ball_speed[1]`). -/
def advBall (g : Game) : Rect :=
  { g.ball with x := g.ball.x + g.ball_speed.1, y := g.ball.y + g.ball_speed.2 }

/-- The wall-bounce condition of line 90, evaluated on the advanced ball:
`ball.top <= 0 or ball.bottom >= HEIGHT`. -/
abbrev wallCross (g : Game) : Prop :=
  (advBall g).top ≤ 0 ∨ HEIGHT ≤ (advBall g).bottom

/-- The paddle-collision condition of line 94, evaluated on the advanced
ball against the paddles as already moved this tick:
`ball.colliderect(paddle1) or ball.colliderect(paddle2)`. -/
def paddleContact (g : Game) (k : Keys) : Bool :=
  (advBall g).colliderect (movePaddle1 k g.paddle1) ||
    (advBall g).colliderect (movePaddle2 g.ai_active k g.ball g.paddle2)

/-- The body of `update()` past the two early returns (source lines 66-112):
paddle movement, ball advancement, wall bounce, paddle bounce, the two
scoring checks (each of which recenters the ball and overwrites the whole
velocity vector), and the win check. -/
def Game.step (g : Game) (k : Keys) : Game :=
  let p1 := movePaddle1 k g.paddle1
  let p2 := movePaddle2 g.ai_active k g.ball g.paddle2
  let b := advBall g
  let vy := if b.top ≤ 0 ∨ HEIGHT ≤ b.bottom then -g.ball_speed.2 else g.ball_speed.2
  let vx := if b.colliderect p1 || b.colliderect p2 then -g.ball_speed.1 else g.ball_speed.1
  let s : Game := { g with paddle1 := p1, paddle2 := p2, ball := b, ball_speed := (vx, vy) }
  let sL : Game :=
    if s.ball.left ≤ 0 then
      { s with
        score2 := s.score2 + 1
        ball := s.ball.setCenter (WIDTH / 2) (HEIGHT / 2)
        ball_speed := (BALL_SPEED, BALL_SPEED) }
    else s
  let sR : Game :=
    if WIDTH ≤ sL.ball.right then
      { sL with
        score1 := sL.score1 + 1
        ball := sL.ball.setCenter (WIDTH / 2) (HEIGHT / 2)
        ball_speed := (-BALL_SPEED, BALL_SPEED) }
    else sL
  if 5 ≤ sR.score1 ∨ 5 ≤ sR.score2 then { sR with game_over := true } else sR

/-- `Game.update` (source lines 57-112): returns unchanged when the match is
over, or when fewer than 32 ms have elapsed since `last_update`; otherwise
records the new `last_update` and runs the physics step. -/
def Game.update (g : Game) (current_time : Int) (k : Keys) : Game :=
  if g.game_over then g
  else if current_time - g.last_update < 32 then g
  else Game.step { g with last_update := current_time } k

/-- The states the running program can put the `Game` object in: the state
built by `Game.__init__`, closed under the mutations the program performs
(`reset()` from the `K_r`/`K_y` handlers, `update()` each frame, the
`ai_active` assignments from keys 1/2, and the `insert_coin = False`
assignment in the event loop). -/
inductive Reachable : Game → Prop
  | init (t : Int) : Reachable (initGame t)
  | reset {g : Game} (h : Reachable g) : Reachable g.reset
  | update {g : Game} (t : Int) (k : Keys) (h : Reachable g) : Reachable (g.update t k)
  | setAI {g : Game} (b : Bool) (h : Reachable g) : Reachable { g with ai_active := b }
  | coinOff {g : Game} (h : Reachable g) : Reachable { g with insert_coin := false }

/-- All keys released. -/
def keysNone : Keys := ⟨false, false, false, false⟩

/-- Only `K_w` held. -/
def keysW : Keys := ⟨true, false, false, false⟩

/-- A mid-rally state: paddles at their starting positions, ball in the
middle of the field moving down-right. -/
def gPlay : Game :=
  { paddle1 := ⟨50, 210, 10, 60⟩
    paddle2 := ⟨580, 210, 10, 60⟩
    ball := ⟨320, 240, 10, 10⟩
    ball_speed := (4, 4)
    score1 := 0
    score2 := 0
    ai_active := true
    last_update := 0
    insert_coin := false
    game_over := false }

/-- A concluded-match state. -/
def gOver : Game := { gPlay with score1 := 5, game_over := true }

/-- Paddle one one unit below the top edge (in bounds but with `y` not a
multiple of `PADDLE_SPEED`). -/
def gClampCex : Game := { gPlay with paddle1 := ⟨50, 1, 10, 60⟩ }

/-- Ball about to cross the left boundary, moving down-left, far from both
paddles. -/
def gScoreFlipX : Game := { gPlay with ball := ⟨2, 100, 10, 10⟩, ball_speed := (-4, 4) }

/-- Ball about to cross the left boundary, moving up-left, far from the
top and bottom walls. -/
def gScoreFlipY : Game := { gPlay with ball := ⟨2, 100, 10, 10⟩, ball_speed := (-4, -4) }

/-- Ball one step away from overlapping paddle two. -/
def gHit : Game := { gPlay with ball := ⟨570, 210, 10, 10⟩ }

/-- Ball one step away from crossing the top wall. -/
def gWall : Game := { gPlay with ball := ⟨100, 2, 10, 10⟩, ball_speed := (4, -4) }

/-- Ball about to cross the left boundary, moving down-left. -/
def gScoreL : Game := { gPlay with ball := ⟨2, 150, 10, 10⟩, ball_speed := (-4, 4) }

/-- Ball exactly at paddle two's vertical center (inside the AI deadband). -/
def gDead : Game := { gPlay with ball := ⟨315, 235, 10, 10⟩ }

/-! ## Helper lemmas about `update` and `step` -/

theorem update_of_over (g : Game) (t : Int) (k : Keys) (h : g.game_over = true) :
    g.update t k = g := by
  simp [Game.update, h]

theorem update_of_throttle (g : Game) (t : Int) (k : Keys) (h : t - g.last_update < 32) :
    g.update t k = g := by
  by_cases hgo : g.game_over <;> simp [Game.update, hgo, h]

theorem update_eq_step (g : Game) (t : Int) (k : Keys)
    (hgo : g.game_over = false) (ht : ¬ t - g.last_update < 32) :
    g.update t k = Game.step { g with last_update := t } k := by
  simp [Game.update, hgo, ht]

theorem step_paddle1 (g : Game) (k : Keys) :
    (Game.step g k).paddle1 = movePaddle1 k g.paddle1 := by
  unfold Game.step
  dsimp only
  split_ifs <;> rfl

theorem step_paddle2 (g : Game) (k : Keys) :
    (Game.step g k).paddle2 = movePaddle2 g.ai_active k g.ball g.paddle2 := by
  unfold Game.step
  dsimp only
  split_ifs <;> rfl

/-! ## Theorems for the claims -/

/-- C2: `update()` is a no-op when the match is concluded: when `game_over`
is true the whole state, every field included, is returned unchanged. -/
theorem update_noop_of_game_over (g : Game) (t : Int) (k : Keys) (h : g.game_over = true) :
    g.update t k = g := by
  simp [Game.update, h]

/-- C2 witness: a concrete concluded state is unchanged by `update()`. -/
theorem update_noop_of_game_over_witness : gOver.update 0 keysNone = gOver :=
  update_noop_of_game_over gOver 0 keysNone rfl

/-- C3 counterexample: after `reset()` the ball's center is not the field's
geometric center `(WIDTH / 2, HEIGHT / 2)`; it is `(325, 245)`, because
`reset()` places the ball's top-left corner at the field center. -/
theorem reset_ball_center_cex :
    ¬ ((Game.reset gPlay).ball.centerx = WIDTH / 2 ∧
       (Game.reset gPlay).ball.centery = HEIGHT / 2) := by
  decide

/-- C3 (amended): `reset()` zeroes both scores, puts both paddles at their
starting vertical centers, places the ball's top-left corner (not its
center) at the field's geometric center, so the ball's center is at
`(WIDTH / 2 + BALL_SIZE / 2, HEIGHT / 2 + BALL_SIZE / 2)`, and clears
`game_over`. -/
theorem reset_post (g : Game) :
    (g.reset).score1 = 0 ∧ (g.reset).score2 = 0 ∧
    (g.reset).paddle1.centery = HEIGHT / 2 ∧ (g.reset).paddle2.centery = HEIGHT / 2 ∧
    (g.reset).ball.x = WIDTH / 2 ∧ (g.reset).ball.y = HEIGHT / 2 ∧
    (g.reset).ball.centerx = WIDTH / 2 + BALL_SIZE / 2 ∧
    (g.reset).ball.centery = HEIGHT / 2 + BALL_SIZE / 2 ∧
    (g.reset).game_over = false :=
  ⟨rfl, rfl, rfl, rfl, rfl, rfl, rfl, rfl, rfl⟩

/-- C10: one `update()` call changes at most one of the two scores, a change
is an increment by exactly 1, and neither score ever decreases. -/
theorem update_scores_cases (g : Game) (t : Int) (k : Keys) (hw : g.ball.w = BALL_SIZE) :
    g.score1 ≤ (g.update t k).score1 ∧ g.score2 ≤ (g.update t k).score2 ∧
    (((g.update t k).score1 = g.score1 ∧ (g.update t k).score2 = g.score2) ∨
     ((g.update t k).score1 = g.score1 + 1 ∧ (g.update t k).score2 = g.score2) ∨
     ((g.update t k).score1 = g.score1 ∧ (g.update t k).score2 = g.score2 + 1)) := by
  unfold Game.update Game.step
  dsimp only
  split_ifs <;>
    simp_all [advBall, Rect.setCenter, Rect.left, Rect.right, WIDTH, HEIGHT, BALL_SIZE]

/-- C10 witness: the score disjunction at a concrete mid-rally state. -/
theorem update_scores_cases_witness :
    gPlay.score1 ≤ (gPlay.update 100 keysNone).score1 ∧
    gPlay.score2 ≤ (gPlay.update 100 keysNone).score2 ∧
    (((gPlay.update 100 keysNone).score1 = gPlay.score1 ∧
      (gPlay.update 100 keysNone).score2 = gPlay.score2) ∨
     ((gPlay.update 100 keysNone).score1 = gPlay.score1 + 1 ∧
      (gPlay.update 100 keysNone).score2 = gPlay.score2) ∨
     ((gPlay.update 100 keysNone).score1 = gPlay.score1 ∧
      (gPlay.update 100 keysNone).score2 = gPlay.score2 + 1)) :=
  update_scores_cases gPlay 100 keysNone rfl

theorem movePaddle1_bounds (k : Keys) (p : Rect) (ha : 0 ≤ p.top) (hb : p.bottom ≤ HEIGHT)
    (hy : PADDLE_SPEED ∣ p.y) (hh : p.h = PADDLE_HEIGHT) :
    0 ≤ (movePaddle1 k p).top ∧ (movePaddle1 k p).bottom ≤ HEIGHT := by
  unfold movePaddle1
  dsimp only
  split_ifs <;>
    simp_all [Rect.top, Rect.bottom, HEIGHT, PADDLE_HEIGHT, PADDLE_SPEED] <;>
    omega

theorem movePaddle2_bounds (ai : Bool) (k : Keys) (ball p : Rect)
    (ha : 0 ≤ p.top) (hb : p.bottom ≤ HEIGHT)
    (hy : PADDLE_SPEED ∣ p.y) (hh : p.h = PADDLE_HEIGHT) :
    0 ≤ (movePaddle2 ai k ball p).top ∧ (movePaddle2 ai k ball p).bottom ≤ HEIGHT := by
  unfold movePaddle2
  dsimp only
  split_ifs <;>
    simp_all [Rect.top, Rect.bottom, Rect.centery, HEIGHT, PADDLE_HEIGHT, PADDLE_SPEED] <;>
    omega

/-- C4 counterexample: from a state whose paddles both lie within the
vertical bounds of the field (paddle one's top edge is at `y = 1`), an
effective `update()` with `K_w` held moves paddle one's rectangle past the
top of the field: the clamp only checks `top > 0` before subtracting
`PADDLE_SPEED = 3`. -/
theorem update_paddle_clamp_cex :
    (0 ≤ gClampCex.paddle1.top ∧ gClampCex.paddle1.bottom ≤ HEIGHT ∧
     0 ≤ gClampCex.paddle2.top ∧ gClampCex.paddle2.bottom ≤ HEIGHT) ∧
    gClampCex.game_over = false ∧ ¬ ((100 : Int) - gClampCex.last_update < 32) ∧
    ¬ 0 ≤ (gClampCex.update 100 keysW).paddle1.top := by
  decide

/-- C4 (amended): for every effective `update()` call starting from a state
in which both paddle rectangles lie within the vertical bounds of the field,
have height `PADDLE_HEIGHT`, and sit at a `y` that is a multiple of
`PADDLE_SPEED` (as every reachable state does: paddles start at `y = 210`
and only ever move in steps of `PADDLE_SPEED = 3`), both paddle rectangles
still lie within the vertical bounds of the field after the
paddle-movement phase. -/
theorem update_paddles_in_bounds (g : Game) (t : Int) (k : Keys)
    (hgo : g.game_over = false) (ht : ¬ t - g.last_update < 32)
    (h1a : 0 ≤ g.paddle1.top) (h1b : g.paddle1.bottom ≤ HEIGHT)
    (h1y : PADDLE_SPEED ∣ g.paddle1.y) (h1h : g.paddle1.h = PADDLE_HEIGHT)
    (h2a : 0 ≤ g.paddle2.top) (h2b : g.paddle2.bottom ≤ HEIGHT)
    (h2y : PADDLE_SPEED ∣ g.paddle2.y) (h2h : g.paddle2.h = PADDLE_HEIGHT) :
    (0 ≤ (g.update t k).paddle1.top ∧ (g.update t k).paddle1.bottom ≤ HEIGHT) ∧
    (0 ≤ (g.update t k).paddle2.top ∧ (g.update t k).paddle2.bottom ≤ HEIGHT) := by
  rw [update_eq_step g t k hgo ht, step_paddle1, step_paddle2]
  exact ⟨movePaddle1_bounds k _ h1a h1b h1y h1h,
    movePaddle2_bounds g.ai_active k _ _ h2a h2b h2y h2h⟩

/-- C4 witness: the amended clamping statement holds at a concrete state
with both paddles at their starting position `y = 210`. -/
theorem update_paddles_in_bounds_witness :
    (0 ≤ (gPlay.update 100 keysW).paddle1.top ∧
     (gPlay.update 100 keysW).paddle1.bottom ≤ HEIGHT) ∧
    (0 ≤ (gPlay.update 100 keysW).paddle2.top ∧
     (gPlay.update 100 keysW).paddle2.bottom ≤ HEIGHT) :=
  update_paddles_in_bounds gPlay 100 keysW rfl (by decide)
    (by decide) (by decide) ⟨70, rfl⟩ rfl
    (by decide) (by decide) ⟨70, rfl⟩ rfl

theorem movePaddle2_ai_cases (ball p : Rect) (k : Keys) :
    movePaddle2 true k ball p = p ∨
    (movePaddle2 true k ball p = { p with y := p.y + PADDLE_SPEED } ∧
      p.centery + 30 < ball.centery) ∨
    (movePaddle2 true k ball p = { p with y := p.y - PADDLE_SPEED } ∧
      ball.centery < p.centery - 30) := by
  unfold movePaddle2
  rw [if_neg (by decide : ¬ ((!true) = true))]
  dsimp only
  split_ifs with h1 h2 h3
  · exfalso
    simp only [Rect.centery, PADDLE_SPEED] at h1 h2
    omega
  · exact Or.inr (Or.inl ⟨rfl, h1.1⟩)
  · exact Or.inr (Or.inr ⟨rfl, h3.1⟩)
  · exact Or.inl rfl

/-- C8: with the AI enabled, an effective `update()` moves paddle two by one
`PADDLE_SPEED` step toward the ball's vertical center only when the ball's
center is more than 30 units from the paddle's center; inside that deadband
paddle two is unchanged by the tick. -/
theorem update_ai_deadband (g : Game) (t : Int) (k : Keys)
    (hgo : g.game_over = false) (ht : ¬ t - g.last_update < 32)
    (hai : g.ai_active = true) :
    (|g.ball.centery - g.paddle2.centery| ≤ 30 → (g.update t k).paddle2 = g.paddle2) ∧
    ((g.update t k).paddle2 ≠ g.paddle2 → 30 < |g.ball.centery - g.paddle2.centery|) ∧
    ((g.update t k).paddle2 = g.paddle2 ∨
      ((g.update t k).paddle2 = { g.paddle2 with y := g.paddle2.y + PADDLE_SPEED } ∧
        g.paddle2.centery + 30 < g.ball.centery) ∨
      ((g.update t k).paddle2 = { g.paddle2 with y := g.paddle2.y - PADDLE_SPEED } ∧
        g.ball.centery < g.paddle2.centery - 30)) := by
  have hp2 : (g.update t k).paddle2 = movePaddle2 true k g.ball g.paddle2 := by
    rw [update_eq_step g t k hgo ht, step_paddle2]
    dsimp only
    rw [hai]
  rw [hp2]
  have hc := movePaddle2_ai_cases g.ball g.paddle2 k
  refine ⟨?_, ?_, hc⟩
  · intro hd
    rw [abs_le] at hd
    rcases hc with h | ⟨he, hgt⟩ | ⟨he, hlt⟩
    · exact h
    · exfalso; omega
    · exfalso; omega
  · intro hne
    rcases hc with h | ⟨he, hgt⟩ | ⟨he, hlt⟩
    · exact absurd h hne
    · exact lt_of_lt_of_le (by omega) (le_abs_self _)
    · rw [abs_sub_comm]
      exact lt_of_lt_of_le (by omega) (le_abs_self _)

/-- C8 witness: with the ball exactly at paddle two's vertical center the
paddle does not move. -/
theorem update_ai_deadband_witness :
    (gDead.update 100 keysNone).paddle2 = gDead.paddle2 :=
  (update_ai_deadband gDead 100 keysNone rfl (by decide) rfl).1 (by decide)

/-- C7: in an effective tick, if the advanced ball's left edge passes the
left boundary then `score2` is incremented, the ball's center is set to the
field center, and the velocity is reset to `(+BALL_SPEED, BALL_SPEED)`;
symmetrically a right-boundary crossing increments `score1` and resets the
velocity to `(-BALL_SPEED, BALL_SPEED)`, biased toward the player who did
not just score. -/
theorem update_score_event (g : Game) (t : Int) (k : Keys)
    (hgo : g.game_over = false) (ht : ¬ t - g.last_update < 32)
    (hw : g.ball.w = BALL_SIZE) :
    ((advBall g).left ≤ 0 →
      (g.update t k).score2 = g.score2 + 1 ∧ (g.update t k).score1 = g.score1 ∧
      (g.update t k).ball.centerx = WIDTH / 2 ∧ (g.update t k).ball.centery = HEIGHT / 2 ∧
      (g.update t k).ball_speed = (BALL_SPEED, BALL_SPEED)) ∧
    (WIDTH ≤ (advBall g).right →
      (g.update t k).score1 = g.score1 + 1 ∧ (g.update t k).score2 = g.score2 ∧
      (g.update t k).ball.centerx = WIDTH / 2 ∧ (g.update t k).ball.centery = HEIGHT / 2 ∧
      (g.update t k).ball_speed = (-BALL_SPEED, BALL_SPEED)) := by
  rw [update_eq_step g t k hgo ht]
  unfold Game.step
  dsimp only
  refine ⟨fun hL => ?_, fun hR => ?_⟩ <;>
    (split_ifs <;>
      simp_all [advBall, Rect.setCenter, Rect.left, Rect.right, Rect.centerx, Rect.centery,
        WIDTH, HEIGHT, BALL_SIZE, BALL_SPEED] <;>
      omega)

/-- C7 witness: the left-boundary scoring event at a concrete state. -/
theorem update_score_event_witness :
    (gScoreL.update 100 keysNone).score2 = gScoreL.score2 + 1 ∧
    (gScoreL.update 100 keysNone).score1 = gScoreL.score1 ∧
    (gScoreL.update 100 keysNone).ball.centerx = WIDTH / 2 ∧
    (gScoreL.update 100 keysNone).ball.centery = HEIGHT / 2 ∧
    (gScoreL.update 100 keysNone).ball_speed = (BALL_SPEED, BALL_SPEED) :=
  (update_score_event gScoreL 100 keysNone rfl (by decide) rfl).1 (by decide)

theorem step_speed_noscore (g : Game) (k : Keys)
    (hL : 0 < (advBall g).left) (hR : (advBall g).right < WIDTH) :
    (Game.step g k).ball_speed =
      (if paddleContact g k then -g.ball_speed.1 else g.ball_speed.1,
       if wallCross g then -g.ball_speed.2 else g.ball_speed.2) := by
  unfold Game.step paddleContact wallCross
  dsimp only
  rw [if_neg (by omega : ¬ (advBall g).left ≤ 0),
    if_neg (by omega : ¬ WIDTH ≤ (advBall g).right)]
  split_ifs <;> rfl

theorem step_flip_x (g : Game) (k : Keys)
    (hL : 0 < (advBall g).left) (hR : (advBall g).right < WIDTH)
    (hvx : g.ball_speed.1 ≠ 0) :
    ((Game.step g k).ball_speed.1 = -g.ball_speed.1 ↔ paddleContact g k = true) := by
  rw [step_speed_noscore g k hL hR]
  by_cases hc : paddleContact g k
  · simp [hc]
  · simp only [hc, Bool.false_eq_true, if_false]
    constructor
    · intro h; omega
    · intro h; exact absurd h (by simp)

theorem step_flip_y (g : Game) (k : Keys)
    (hL : 0 < (advBall g).left) (hR : (advBall g).right < WIDTH)
    (hvy : g.ball_speed.2 ≠ 0) :
    ((Game.step g k).ball_speed.2 = -g.ball_speed.2 ↔ wallCross g) := by
  rw [step_speed_noscore g k hL hR]
  by_cases hc : wallCross g
  · simp [hc]
  · simp only [hc, if_false]
    constructor
    · intro h; omega
    · intro h; exact h.elim

/-- C5 counterexample: an effective tick in which the horizontal velocity
component ends up negated although the advanced ball overlaps neither
paddle — the ball crosses the left boundary and the scoring branch
overwrites the velocity with `(+BALL_SPEED, BALL_SPEED)`, which here equals
the negation of the incoming `(-BALL_SPEED)`. -/
theorem update_flip_x_cex :
    gScoreFlipX.game_over = false ∧ ¬ ((100 : Int) - gScoreFlipX.last_update < 32) ∧
    (gScoreFlipX.update 100 keysNone).ball_speed.1 = -gScoreFlipX.ball_speed.1 ∧
    paddleContact gScoreFlipX keysNone = false := by
  decide

/-- C5 (amended): in an effective tick in which no scoring event occurs
(the advanced ball stays strictly inside the horizontal bounds) and the
horizontal velocity component is nonzero, that component's sign flips if
and only if the advanced ball's bounding box overlaps paddle one's or
paddle two's bounding box in that tick. -/
theorem update_flip_x_iff (g : Game) (t : Int) (k : Keys)
    (hgo : g.game_over = false) (ht : ¬ t - g.last_update < 32)
    (hL : 0 < (advBall g).left) (hR : (advBall g).right < WIDTH)
    (hvx : g.ball_speed.1 ≠ 0) :
    ((g.update t k).ball_speed.1 = -g.ball_speed.1 ↔ paddleContact g k = true) := by
  rw [update_eq_step g t k hgo ht]
  exact step_flip_x { g with last_update := t } k hL hR hvx

/-- C5 witness: a tick in which the ball reaches paddle two and the
horizontal component flips. -/
theorem update_flip_x_iff_witness :
    (gHit.update 100 keysNone).ball_speed.1 = -gHit.ball_speed.1 :=
  (update_flip_x_iff gHit 100 keysNone rfl (by decide) (by decide) (by decide)
    (by decide)).mpr (by decide)

/-- C6 counterexample: an effective tick in which the vertical velocity
component ends up negated although the advanced ball's vertical extent
crosses neither the top nor the bottom bound — the ball crosses the left
boundary and the scoring branch overwrites the velocity with
`(+BALL_SPEED, BALL_SPEED)`, which here equals the negation of the incoming
`(-BALL_SPEED)`. -/
theorem update_flip_y_cex :
    gScoreFlipY.game_over = false ∧ ¬ ((100 : Int) - gScoreFlipY.last_update < 32) ∧
    (gScoreFlipY.update 100 keysNone).ball_speed.2 = -gScoreFlipY.ball_speed.2 ∧
    ¬ wallCross gScoreFlipY := by
  decide

/-- C6 (amended): in an effective tick in which no scoring event occurs
(the advanced ball stays strictly inside the horizontal bounds) and the
vertical velocity component is nonzero, that component's sign flips if and
only if the advanced ball's vertical extent crosses the field's top or
bottom bound in that tick. -/
theorem update_flip_y_iff (g : Game) (t : Int) (k : Keys)
    (hgo : g.game_over = false) (ht : ¬ t - g.last_update < 32)
    (hL : 0 < (advBall g).left) (hR : (advBall g).right < WIDTH)
    (hvy : g.ball_speed.2 ≠ 0) :
    ((g.update t k).ball_speed.2 = -g.ball_speed.2 ↔ wallCross g) := by
  rw [update_eq_step g t k hgo ht]
  exact step_flip_y { g with last_update := t } k hL hR hvy

/-- C6 witness: a tick in which the ball bounces off the top wall and the
vertical component flips. -/
theorem update_flip_y_iff_witness :
    (gWall.update 100 keysNone).ball_speed.2 = -gWall.ball_speed.2 :=
  (update_flip_y_iff gWall 100 keysNone rfl (by decide) (by decide) (by decide)
    (by decide)).mpr (by decide)

theorem step_game_over_iff (g : Game) (k : Keys) (h : g.game_over = false) :
    ((Game.step g k).game_over = true ↔
      5 ≤ (Game.step g k).score1 ∨ 5 ≤ (Game.step g k).score2) := by
  unfold Game.step
  dsimp only
  split_ifs <;> simp_all

theorem update_game_over_iff (g : Game) (t : Int) (k : Keys)
    (h : g.game_over = true ↔ 5 ≤ g.score1 ∨ 5 ≤ g.score2) :
    ((g.update t k).game_over = true ↔
      5 ≤ (g.update t k).score1 ∨ 5 ≤ (g.update t k).score2) := by
  by_cases hgo : g.game_over = true
  · rw [update_of_over g t k hgo]; exact h
  · have hgo' : g.game_over = false := Bool.not_eq_true _ ▸ eq_false_of_ne_true hgo
    by_cases ht : t - g.last_update < 32
    · rw [update_of_throttle g t k ht]; exact h
    · rw [update_eq_step g t k hgo' ht]
      exact step_game_over_iff _ k hgo'

theorem go_inv_of_reachable {g : Game} (h : Reachable g) :
    (g.game_over = true ↔ 5 ≤ g.score1 ∨ 5 ≤ g.score2) := by
  induction h with
  | init t => simp [initGame, Game.reset]
  | reset h ih => simp [Game.reset]
  | update t k h ih => exact update_game_over_iff _ t k ih
  | setAI b h ih => exact ih
  | coinOff h ih => exact ih

/-- C1: in every reachable state the match-concluded flag is true exactly
when a score has reached the winning threshold 5, and an `update()` call in
which a score reaches 5 leaves a state in which `game_over` is already
true. -/
theorem reachable_game_over_iff (g : Game) (h : Reachable g) :
    (g.game_over = true ↔ 5 ≤ g.score1 ∨ 5 ≤ g.score2) ∧
    ∀ (t : Int) (k : Keys),
      ((g.update t k).game_over = true ↔
        5 ≤ (g.update t k).score1 ∨ 5 ≤ (g.update t k).score2) :=
  ⟨go_inv_of_reachable h, fun t k => go_inv_of_reachable (Reachable.update t k h)⟩

/-- C1 witness: the invariant instantiated at the initial state and at one
concrete update of it. -/
theorem reachable_game_over_iff_witness :
    ((initGame 0).game_over = true ↔ 5 ≤ (initGame 0).score1 ∨ 5 ≤ (initGame 0).score2) ∧
    (((initGame 0).update 100 keysNone).game_over = true ↔
      5 ≤ ((initGame 0).update 100 keysNone).score1 ∨
        5 ≤ ((initGame 0).update 100 keysNone).score2) :=
  ⟨(reachable_game_over_iff _ (Reachable.init 0)).1,
   (reachable_game_over_iff _ (Reachable.init 0)).2 100 keysNone⟩

theorem step_speed_mem (g : Game) (k : Keys)
    (h1 : g.ball_speed.1 = BALL_SPEED ∨ g.ball_speed.1 = -BALL_SPEED)
    (h2 : g.ball_speed.2 = BALL_SPEED ∨ g.ball_speed.2 = -BALL_SPEED) :
    ((Game.step g k).ball_speed.1 = BALL_SPEED ∨
      (Game.step g k).ball_speed.1 = -BALL_SPEED) ∧
    ((Game.step g k).ball_speed.2 = BALL_SPEED ∨
      (Game.step g k).ball_speed.2 = -BALL_SPEED) := by
  unfold Game.step
  dsimp only
  split_ifs <;> simp_all [BALL_SPEED] <;> omega

theorem update_speed_mem (g : Game) (t : Int) (k : Keys)
    (h1 : g.ball_speed.1 = BALL_SPEED ∨ g.ball_speed.1 = -BALL_SPEED)
    (h2 : g.ball_speed.2 = BALL_SPEED ∨ g.ball_speed.2 = -BALL_SPEED) :
    ((g.update t k).ball_speed.1 = BALL_SPEED ∨
      (g.update t k).ball_speed.1 = -BALL_SPEED) ∧
    ((g.update t k).ball_speed.2 = BALL_SPEED ∨
      (g.update t k).ball_speed.2 = -BALL_SPEED) := by
  by_cases hgo : g.game_over = true
  · rw [update_of_over g t k hgo]; exact ⟨h1, h2⟩
  · have hgo' : g.game_over = false := Bool.not_eq_true _ ▸ eq_false_of_ne_true hgo
    by_cases ht : t - g.last_update < 32
    · rw [update_of_throttle g t k ht]; exact ⟨h1, h2⟩
    · rw [update_eq_step g t k hgo' ht]
      exact step_speed_mem _ k h1 h2

theorem speed_inv_of_reachable {g : Game} (h : Reachable g) :
    (g.ball_speed.1 = BALL_SPEED ∨ g.ball_speed.1 = -BALL_SPEED) ∧
    (g.ball_speed.2 = BALL_SPEED ∨ g.ball_speed.2 = -BALL_SPEED) := by
  induction h with
  | init t => exact ⟨Or.inl rfl, Or.inl rfl⟩
  | reset h ih => exact ⟨Or.inl rfl, Or.inl rfl⟩
  | update t k h ih => exact update_speed_mem _ t k ih.1 ih.2
  | setAI b h ih => exact ih
  | coinOff h ih => exact ih

/-- C9: in every reachable state each component of the ball's velocity
vector is `+BALL_SPEED` or `-BALL_SPEED`: every operation either negates a
component or reassigns the whole vector to `(±BALL_SPEED, BALL_SPEED)`. -/
theorem reachable_speed_inv (g : Game) (h : Reachable g) :
    (g.ball_speed.1 = BALL_SPEED ∨ g.ball_speed.1 = -BALL_SPEED) ∧
    (g.ball_speed.2 = BALL_SPEED ∨ g.ball_speed.2 = -BALL_SPEED) :=
  speed_inv_of_reachable h

/-- C9 witness: the velocity invariant at the initial state. -/
theorem reachable_speed_inv_witness :
    ((initGame 0).ball_speed.1 = BALL_SPEED ∨ (initGame 0).ball_speed.1 = -BALL_SPEED) ∧
    ((initGame 0).ball_speed.2 = BALL_SPEED ∨ (initGame 0).ball_speed.2 = -BALL_SPEED) :=
  reachable_speed_inv _ (Reachable.init 0)
